import Mathlib

/-!
Verification development for the MPF pinball control framework.

Part 1 embeds the OPP solenoid driver (`mpf/platforms/opp/opp_coil.py`,
class `OPPSolenoid`) as pure Lean functions: every method becomes a
function from driver state to new driver state plus the list of message
payloads handed to `send_to_processor`.

Part 2 models the ball transport coordination subsystem (BallDevice state
machine, transfers, the machine-wide ledger). The implementation of that
subsystem is not part of this source tree (only its tests are), so it is
modelled from the specification document, as noted on each definition.
-/

namespace MPF

/-- Pulse settings of a driver: duration in ms and a power fraction.
Mirrors `PulseSettings` of `driver_platform_interface`; power is a float
in the source, embedded as a rational. -/
structure PulseSettings where
  duration : Nat
  power : ℚ
deriving DecidableEq, Repr

/-- Hold settings of a driver: a power fraction.
Mirrors `HoldSettings` of `driver_platform_interface`. -/
structure HoldSettings where
  power : ℚ
deriving DecidableEq, Repr

/-- Mirrors the namedtuple
`SwitchRule = namedtuple("SwitchRule", ["pulse_settings", "hold_settings", "recycle"])`
of `opp_coil.py`. Namedtuples compare by value, as does this structure. -/
structure SwitchRule where
  pulse_settings : PulseSettings
  hold_settings : Option HoldSettings
  recycle : Bool
deriving DecidableEq, Repr

/-- The tuple `(pulse_settings, hold_settings, recycle, bool(self.switch_rule))`
stored in `self._config_state` by `OPPSolenoid.reconfigure_driver`. -/
abbrev ConfigState := PulseSettings × Option HoldSettings × Bool × Bool

/-- State of one `OPPSolenoid` driver object.  `sol_int` is the solenoid
number parsed from `self.number`, `addr` is `self.solCard.addr`,
`recycle_factor` embeds `self.platform_settings["recycle_factor"]`
(Python truthiness of that entry is emptiness, i.e. the value 0), and
`min_version_ge_2` embeds `self.solCard.platform.minVersion >= 0x00020000`. -/
structure OPPSolenoid where
  switch_rule : Option SwitchRule
  config_state : Option ConfigState
  recycle_factor : Nat
  min_version_ge_2 : Bool
  sol_int : Nat
  addr : Nat
deriving DecidableEq, Repr

/-- Modelled from the spec: the byte constants of `OppRs232Intf` live in the
excluded hardware-protocol collaborator (serial framing is out of scope per
the spec, section 1); only their role as distinct command flag values is
relevant here. -/
def CFG_SOL_USE_SWITCH : Nat := 1

/-- Modelled from the spec: flag constant of the excluded `OppRs232Intf`
collaborator, see `CFG_SOL_USE_SWITCH`. -/
def CFG_SOL_AUTO_CLR : Nat := 2

/-- Modelled from the spec: flag constant of the excluded `OppRs232Intf`
collaborator, see `CFG_SOL_USE_SWITCH`. -/
def CFG_SOL_ON_OFF : Nat := 4

/-- Message payloads handed to `send_to_processor`, one constructor per
send site of `OPPSolenoid`: `config` for the individual-config message
built by `reconfigure_driver` (board address, solenoid number, command
flags, pulse length, and the combined hold plus minimum-off byte) and
`kick` for the message built by `_kick_coil` (board address, the on flag
and the solenoid bit mask). -/
inductive OppMsg where
  | config (addr solenoid cmd pulse_len hold_off : Nat)
  | kick (addr : Nat) (isOn : Bool) (mask : Nat)
deriving DecidableEq, Repr

/-- Embeds `OPPSolenoid.get_minimum_off_time` (opp_coil.py lines 31-42):
0 when recycle is off, else the configured recycle factor when truthy,
else the default factor 2. -/
def get_minimum_off_time (d : OPPSolenoid) (recycle : Bool) : Nat :=
  if !recycle then 0
  else if d.recycle_factor ≠ 0 then d.recycle_factor
  else 2

/-- The config message assembled by `reconfigure_driver` (opp_coil.py lines
130-160) when the configuration actually changes: the auto-clear flag when
there are no hold settings or zero hold power, the hold nibble
`int(power * 16)` capped at 15 (with the full-power flag on firmware at
least 0x00020000), the use-switch flag when a switch rule is installed,
and the combined byte `hold + (minimum_off << 4)`. -/
def configMsg (d : OPPSolenoid) (ps : PulseSettings) (hs : Option HoldSettings)
    (recycle : Bool) : OppMsg :=
  OppMsg.config d.addr d.sol_int
    ((match hs with
      | none => CFG_SOL_AUTO_CLR
      | some h =>
        if h.power = 0 then CFG_SOL_AUTO_CLR
        else if 16 ≤ ((h.power * 16).floor.toNat) then
          (if d.min_version_ge_2 then CFG_SOL_ON_OFF else 0)
        else 0)
     + (if d.switch_rule.isSome then CFG_SOL_USE_SWITCH else 0))
    ps.duration
    ((match hs with
      | none => 0
      | some h =>
        if h.power = 0 then 0
        else if 16 ≤ ((h.power * 16).floor.toNat) then 15
        else (h.power * 16).floor.toNat)
     + (get_minimum_off_time d recycle <<< 4))

/-- Embeds `OPPSolenoid.reconfigure_driver` (opp_coil.py lines 119-163):
compute the new config state tuple; if it equals the stored one, do
nothing; otherwise store it and send one individual-config message. -/
def reconfigure_driver (d : OPPSolenoid) (ps : PulseSettings)
    (hs : Option HoldSettings) (recycle : Bool) : OPPSolenoid × List OppMsg :=
  if d.config_state = some (ps, hs, recycle, d.switch_rule.isSome) then (d, [])
  else ({ d with config_state := some (ps, hs, recycle, d.switch_rule.isSome) },
        [configMsg d ps hs recycle])

/-- Embeds `OPPSolenoid.apply_switch_rule` (opp_coil.py lines 113-117):
re-apply the stored switch rule through `reconfigure_driver` when there
is one. -/
def apply_switch_rule (d : OPPSolenoid) : OPPSolenoid × List OppMsg :=
  match d.switch_rule with
  | some r => reconfigure_driver d r.pulse_settings r.hold_settings r.recycle
  | none => (d, [])

/-- Embeds `OPPSolenoid.pulse` (opp_coil.py lines 81-92): reconfigure with
the pulse settings, no hold and recycle off, send one kick message with
the solenoid bit mask on, then restore the switch rule if there is one.
The function returns as soon as the messages are emitted; no response
from the hardware is read. -/
def pulse (d : OPPSolenoid) (ps : PulseSettings) : OPPSolenoid × List OppMsg :=
  ((apply_switch_rule (reconfigure_driver d ps none false).1).1,
   (reconfigure_driver d ps none false).2
     ++ [OppMsg.kick d.addr true (1 <<< d.sol_int)]
     ++ (apply_switch_rule (reconfigure_driver d ps none false).1).2)

/-- Embeds `OPPSolenoid.enable` (opp_coil.py lines 69-79): like `pulse`
but reconfiguring with the given hold settings. -/
def enable (d : OPPSolenoid) (ps : PulseSettings) (hs : HoldSettings) :
    OPPSolenoid × List OppMsg :=
  ((apply_switch_rule (reconfigure_driver d ps (some hs) false).1).1,
   (reconfigure_driver d ps (some hs) false).2
     ++ [OppMsg.kick d.addr true (1 <<< d.sol_int)]
     ++ (apply_switch_rule (reconfigure_driver d ps (some hs) false).1).2)

/-- Embeds `OPPSolenoid.disable` (opp_coil.py lines 62-67): one kick
message with the mask off. -/
def disable (d : OPPSolenoid) : OPPSolenoid × List OppMsg :=
  (d, [OppMsg.kick d.addr false (1 <<< d.sol_int)])

/-- The message of the `AssertionError` raised by
`OPPSolenoid.set_switch_rule` on a conflicting rule. -/
def oppRuleConflictError : String :=
  "Cannot set two rule with different driver settings in opp."

/-- Embeds `OPPSolenoid.set_switch_rule` (opp_coil.py lines 104-111).
The first component is the raised error, if any: the raise happens before
any assignment, so on the error path the driver object is returned
untouched and no message is sent.  Otherwise the rule is stored and
applied. -/
def set_switch_rule (d : OPPSolenoid) (ps : PulseSettings)
    (hs : Option HoldSettings) (recycle : Bool) :
    Option String × OPPSolenoid × List OppMsg :=
  if d.switch_rule.isSome = true ∧ d.switch_rule ≠ some ⟨ps, hs, recycle⟩ then
    (some oppRuleConflictError, d, [])
  else
    (none, (apply_switch_rule { d with switch_rule := some ⟨ps, hs, recycle⟩ }).1,
           (apply_switch_rule { d with switch_rule := some ⟨ps, hs, recycle⟩ }).2)

/-- Modelled from the spec: the three BallDevice states of spec section 4.1.
The BallDevice implementation itself is not part of this source tree (only
its tests are), so the whole ball transport model below follows the words
of the specification. -/
inductive DevState where
  | idle
  | waiting_for_target
  | ejecting
deriving DecidableEq, Repr

/-- Modelled from the spec: one in-flight ball movement (spec section 3,
Transfer).  The source field is implicit: a transfer is owned by its
source device as that device holds `pending_transfer`. -/
structure BallTransfer (ι : Type) where
  target : ι
  attempt_count : Nat
  confirmed : Bool
deriving DecidableEq, Repr

/-- Modelled from the spec: a BallDevice (spec section 3): confirmed ball
count, optional capacity, the ordered eject target chain, the state
machine state, at most one owned transfer, whether an eject requirement
is pending, and a counter of coil pulses issued on behalf of this device
(the observable the tests read as the pulse call count of the coil). -/
structure BallDevice (ι : Type) where
  ball_count : Nat
  capacity : Option Nat
  eject_target_chain : List ι
  state : DevState
  pending_transfer : Option (BallTransfer ι)
  eject_pending : Bool
  pulse_count : Nat
deriving DecidableEq, Repr

/-- Modelled from the spec: the machine is the device topology plus the
BallController ledger `total_known_balls` (spec section 3). -/
structure Machine (ι : Type) where
  devices : ι → BallDevice ι
  total_known_balls : Nat

/-- Modelled from the spec: a device has free capacity when it has no
configured capacity bound (the playfield) or its count is below it. -/
def hasFreeCapacity {ι : Type} (d : BallDevice ι) : Bool :=
  match d.capacity with
  | none => true
  | some c => decide (d.ball_count < c)

/-- Modelled from the spec: target selection of spec section 4.2, the
first candidate of the eject target chain with free capacity wins. -/
def firstFreeTarget {ι : Type} (m : Machine ι) (d : BallDevice ι) : Option ι :=
  d.eject_target_chain.find? (fun j => hasFreeCapacity (m.devices j))

/-- The target of the transfer owned by a device, if any. -/
def transferTarget {ι : Type} (d : BallDevice ι) : Option ι :=
  d.pending_transfer.map (fun t => t.target)

/-- The attempt count of the transfer owned by a device (0 when none). -/
def attemptsOf {ι : Type} (d : BallDevice ι) : Nat :=
  match d.pending_transfer with
  | some t => t.attempt_count
  | none => 0

/-- Modelled from the spec: event labels of the BallDevice state machine
transitions (spec section 4.1 transition table), plus `requestEject` for
the arrival of an eject requirement and `reconcile` for an unexpected
switch activation forwarded to the BallController with no state change. -/
inductive BallEvent (ι : Type) where
  | requestEject (dev : ι)
  | ejectStart (src tgt : ι)
  | blocked (src : ι)
  | resume (src tgt : ι)
  | confirm (src tgt : ι)
  | retryPulse (src : ι)
  | jamFault (src : ι)
  | reconcile (dev : ι)
deriving DecidableEq, Repr

/-- Events whose action includes pulsing the source coil. -/
def isPulseEvent {ι : Type} : BallEvent ι → Bool
  | .ejectStart _ _ => true
  | .resume _ _ => true
  | .retryPulse _ => true
  | _ => false

/-- Convenience constructor: the machine with one device replaced. -/
def updDev {ι : Type} [DecidableEq ι] (m : Machine ι) (i : ι) (d : BallDevice ι) :
    Machine ι :=
  { m with devices := Function.update m.devices i d }

/-- Modelled from the spec: the labelled transition relation of the
BallDevice state machine, one constructor per row of the transition table
of spec section 4.1:

* `requestEject`: an eject requirement arrives for an idle device.
* `ejectStart`: idle, eject needed, first chain candidate with free
  capacity selected: go to EJECTING, create the transfer, pulse the coil.
* `blocked`: idle, eject needed, no target has capacity: go to
  WAITING_FOR_TARGET, no action.
* `resume`: waiting for target, a chain candidate now has free capacity:
  go to EJECTING, create the transfer, pulse the coil.
* `confirm`: the entry switch of the target activates within the window:
  the source returns to idle and decrements its own count, the target
  increments its own count on its own switch event, the transfer is
  retired.  The in-flight ball was counted in the source until now.
* `retryPulse`: timeout with attempts remaining: increment the attempt
  count and re-pulse, staying in EJECTING.
* `jamFault`: timeout with attempts exhausted: back to idle, transfer
  abandoned, ball count unchanged (conservative).
* `reconcile`: unexpected switch activation with no pending transfer is
  forwarded to the BallController, state unchanged. -/
inductive Step {ι : Type} [DecidableEq ι] (maxAttempts : Nat) :
    Machine ι → BallEvent ι → Machine ι → Prop where
  | requestEject {m : Machine ι} {dev : ι} :
      (m.devices dev).state = .idle →
      Step maxAttempts m (.requestEject dev)
        (updDev m dev { m.devices dev with eject_pending := true })
  | ejectStart {m : Machine ι} {src tgt : ι} :
      (m.devices src).state = .idle →
      (m.devices src).eject_pending = true →
      0 < (m.devices src).ball_count →
      firstFreeTarget m (m.devices src) = some tgt →
      src ≠ tgt →
      Step maxAttempts m (.ejectStart src tgt)
        (updDev m src
          { m.devices src with
              state := .ejecting, eject_pending := false,
              pending_transfer := some ⟨tgt, 0, false⟩,
              pulse_count := (m.devices src).pulse_count + 1 })
  | blocked {m : Machine ι} {src : ι} :
      (m.devices src).state = .idle →
      (m.devices src).eject_pending = true →
      firstFreeTarget m (m.devices src) = none →
      Step maxAttempts m (.blocked src)
        (updDev m src { m.devices src with state := .waiting_for_target })
  | resume {m : Machine ι} {src tgt : ι} :
      (m.devices src).state = .waiting_for_target →
      0 < (m.devices src).ball_count →
      firstFreeTarget m (m.devices src) = some tgt →
      src ≠ tgt →
      Step maxAttempts m (.resume src tgt)
        (updDev m src
          { m.devices src with
              state := .ejecting,
              pending_transfer := some ⟨tgt, 0, false⟩,
              pulse_count := (m.devices src).pulse_count + 1 })
  | confirm {m : Machine ι} {src tgt : ι} :
      (m.devices src).state = .ejecting →
      transferTarget (m.devices src) = some tgt →
      src ≠ tgt →
      0 < (m.devices src).ball_count →
      Step maxAttempts m (.confirm src tgt)
        (updDev
          (updDev m src
            { m.devices src with
                state := .idle, pending_transfer := none,
                ball_count := (m.devices src).ball_count - 1 })
          tgt
          { m.devices tgt with
              ball_count := (m.devices tgt).ball_count + 1 })
  | retryPulse {m : Machine ι} {src : ι} :
      (m.devices src).state = .ejecting →
      (m.devices src).pending_transfer.isSome = true →
      attemptsOf (m.devices src) + 1 < maxAttempts →
      Step maxAttempts m (.retryPulse src)
        (updDev m src
          { m.devices src with
              pending_transfer := (m.devices src).pending_transfer.map
                (fun t => { t with attempt_count := t.attempt_count + 1 }),
              pulse_count := (m.devices src).pulse_count + 1 })
  | jamFault {m : Machine ι} {src : ι} :
      (m.devices src).state = .ejecting →
      (m.devices src).pending_transfer.isSome = true →
      maxAttempts ≤ attemptsOf (m.devices src) + 1 →
      Step maxAttempts m (.jamFault src)
        (updDev m src
          { m.devices src with state := .idle, pending_transfer := none })
  | reconcile {m : Machine ι} (dev : ι) :
      Step maxAttempts m (.reconcile dev) m

/-- Reflexive-transitive closure of `Step`: the reachable machine states. -/
inductive Reachable {ι : Type} [DecidableEq ι] (maxAttempts : Nat)
    (init : Machine ι) : Machine ι → Prop where
  | refl : Reachable maxAttempts init init
  | step {m m' : Machine ι} {e : BallEvent ι} :
      Reachable maxAttempts init m → Step maxAttempts m e m' →
      Reachable maxAttempts init m'

/-- Sum of the confirmed ball counts over every device.  In-flight
unconfirmed transfers are counted as still present in their source
device, since a source only decrements on confirmation. -/
def totalCount {ι : Type} [Fintype ι] (m : Machine ι) : Nat :=
  ∑ i, (m.devices i).ball_count

/-- Predicate picking out individual-config messages. -/
def isConfigMsg : OppMsg → Bool
  | .config _ _ _ _ _ => true
  | .kick _ _ _ => false

/-- Predicate picking out kick-solenoid messages. -/
def isKickMsg : OppMsg → Bool
  | .config _ _ _ _ _ => false
  | .kick _ _ _ => true

/-- A freshly initialised driver: no switch rule, no applied config,
recycle factor unset, old firmware, solenoid 2 on board 0x20. -/
def d0ex : OPPSolenoid :=
  { switch_rule := none, config_state := none, recycle_factor := 0,
    min_version_ge_2 := false, sol_int := 2, addr := 32 }

/-- A sample hardware reflex rule: 10 ms full-power pulse, no hold,
recycle on. -/
def ruleEx : SwitchRule :=
  { pulse_settings := { duration := 10, power := 1 },
    hold_settings := none, recycle := true }

/-- The driver after installing `ruleEx` on `d0ex`. -/
def d1ex : OPPSolenoid :=
  (set_switch_rule d0ex ruleEx.pulse_settings ruleEx.hold_settings
    ruleEx.recycle).2.1

/-- Devices of the Gottlieb trough test fixture at boot, indexed
0 = outhole, 1 = trough, 2 = plunger, 3 = playfield: one drained ball
sits in the outhole (earmarked for transfer to the trough), the trough
is full with three balls. -/
def outholeBoot : BallDevice (Fin 4) :=
  { ball_count := 1, capacity := some 1, eject_target_chain := [1],
    state := .idle, pending_transfer := none, eject_pending := true,
    pulse_count := 0 }

/-- The trough at boot: full at capacity three, targeting the plunger. -/
def troughBoot : BallDevice (Fin 4) :=
  { ball_count := 3, capacity := some 3, eject_target_chain := [2],
    state := .idle, pending_transfer := none, eject_pending := false,
    pulse_count := 0 }

/-- The plunger lane at boot: empty, capacity one, feeding the playfield. -/
def plungerBoot : BallDevice (Fin 4) :=
  { ball_count := 0, capacity := some 1, eject_target_chain := [3],
    state := .idle, pending_transfer := none, eject_pending := false,
    pulse_count := 0 }

/-- The playfield at boot: empty and unbounded, the end of the chain. -/
def playfieldBoot : BallDevice (Fin 4) :=
  { ball_count := 0, capacity := none, eject_target_chain := [],
    state := .idle, pending_transfer := none, eject_pending := false,
    pulse_count := 0 }

/-- The whole machine at boot, ledger initialised to the four balls. -/
def bootMachine : Machine (Fin 4) :=
  { devices := ![outholeBoot, troughBoot, plungerBoot, playfieldBoot],
    total_known_balls := 4 }

/-- After the outhole finds the trough full and parks in
WAITING_FOR_TARGET. -/
def bootM1 : Machine (Fin 4) :=
  updDev bootMachine 0
    { bootMachine.devices 0 with state := .waiting_for_target }

/-- After game start asks the trough to send a ball to the plunger. -/
def bootM2 : Machine (Fin 4) :=
  updDev bootM1 1 { bootM1.devices 1 with eject_pending := true }

/-- After the trough starts ejecting toward the plunger. -/
def bootM3 : Machine (Fin 4) :=
  updDev bootM2 1
    { bootM2.devices 1 with
        state := .ejecting, eject_pending := false,
        pending_transfer := some ⟨2, 0, false⟩,
        pulse_count := (bootM2.devices 1).pulse_count + 1 }

/-- After the plunger entry switch confirms the transfer from the trough. -/
def bootM4 : Machine (Fin 4) :=
  updDev
    (updDev bootM3 1
      { bootM3.devices 1 with
          state := .idle, pending_transfer := none,
          ball_count := (bootM3.devices 1).ball_count - 1 })
    2
    { bootM3.devices 2 with
        ball_count := (bootM3.devices 2).ball_count + 1 }

/-- After the outhole, seeing trough capacity freed, resumes ejecting. -/
def bootM5 : Machine (Fin 4) :=
  updDev bootM4 0
    { bootM4.devices 0 with
        state := .ejecting,
        pending_transfer := some ⟨1, 0, false⟩,
        pulse_count := (bootM4.devices 0).pulse_count + 1 }

/-- After the trough entry switch confirms the transfer from the outhole. -/
def bootM6 : Machine (Fin 4) :=
  updDev
    (updDev bootM5 0
      { bootM5.devices 0 with
          state := .idle, pending_transfer := none,
          ball_count := (bootM5.devices 0).ball_count - 1 })
    1
    { bootM5.devices 1 with
        ball_count := (bootM5.devices 1).ball_count + 1 }

theorem reconfigure_driver_switch_rule (d : OPPSolenoid) (ps : PulseSettings)
    (hs : Option HoldSettings) (recycle : Bool) :
    (reconfigure_driver d ps hs recycle).1.switch_rule = d.switch_rule := by
  unfold reconfigure_driver
  split <;> rfl

theorem reconfigure_driver_config_state (d : OPPSolenoid) (ps : PulseSettings)
    (hs : Option HoldSettings) (recycle : Bool) :
    (reconfigure_driver d ps hs recycle).1.config_state =
      some (ps, hs, recycle, d.switch_rule.isSome) := by
  unfold reconfigure_driver
  split
  next h => exact h
  next h => rfl

theorem reconfigure_driver_msgs_spec (d : OPPSolenoid) (ps : PulseSettings)
    (hs : Option HoldSettings) (recycle : Bool) :
    (reconfigure_driver d ps hs recycle).2.length ≤ 1 ∧
    (reconfigure_driver d ps hs recycle).2.all isConfigMsg = true := by
  unfold reconfigure_driver
  split
  · exact ⟨by simp, rfl⟩
  · exact ⟨by simp, rfl⟩

theorem apply_switch_rule_of_rule (d : OPPSolenoid) (r : SwitchRule)
    (h : d.switch_rule = some r) :
    apply_switch_rule d =
      reconfigure_driver d r.pulse_settings r.hold_settings r.recycle := by
  unfold apply_switch_rule
  rw [h]

theorem apply_switch_rule_of_none (d : OPPSolenoid) (h : d.switch_rule = none) :
    apply_switch_rule d = (d, []) := by
  unfold apply_switch_rule
  rw [h]

theorem apply_switch_rule_applied (d : OPPSolenoid) (r : SwitchRule)
    (h : d.switch_rule = some r) :
    (apply_switch_rule d).1.config_state =
      some (r.pulse_settings, r.hold_settings, r.recycle, true) ∧
    (apply_switch_rule d).1.switch_rule = some r := by
  rw [apply_switch_rule_of_rule d r h]
  refine ⟨?_, ?_⟩
  · rw [reconfigure_driver_config_state, h]
    rfl
  · rw [reconfigure_driver_switch_rule, h]

theorem apply_switch_rule_msgs_spec (d : OPPSolenoid) :
    (apply_switch_rule d).2.length ≤ 1 ∧
    (apply_switch_rule d).2.all isConfigMsg = true := by
  unfold apply_switch_rule
  split
  · exact reconfigure_driver_msgs_spec _ _ _ _
  · exact ⟨by simp, rfl⟩

/-- Claim C1: a conflicting switch rule request on a driver that already
has one installed is rejected at request time: the error is raised and
returned to the requester before any assignment happens, so the stored
rule, the applied configuration and the hardware (no message sent) are
left exactly as they were. -/
theorem set_switch_rule_conflict_rejected (d : OPPSolenoid) (r : SwitchRule)
    (ps : PulseSettings) (hs : Option HoldSettings) (recycle : Bool)
    (hr : d.switch_rule = some r) (hne : SwitchRule.mk ps hs recycle ≠ r) :
    set_switch_rule d ps hs recycle = (some oppRuleConflictError, d, []) := by
  unfold set_switch_rule
  have hcond : d.switch_rule.isSome = true ∧
      d.switch_rule ≠ some ⟨ps, hs, recycle⟩ := by
    refine ⟨by rw [hr]; rfl, ?_⟩
    intro hc
    rw [hr] at hc
    exact hne (Option.some.inj hc).symm
  rw [if_pos hcond]

/-- Witness for C1: installing a 5 ms rule on a driver carrying the 10 ms
rule is rejected and the driver is returned untouched. -/
theorem set_switch_rule_conflict_rejected_witness :
    set_switch_rule d1ex { duration := 5, power := 1 } none false =
      (some oppRuleConflictError, d1ex, []) :=
  set_switch_rule_conflict_rejected d1ex ruleEx
    { duration := 5, power := 1 } none false (by decide) (by decide)

/-- Claim C9: re-installing the value-equal rule succeeds without raising,
and leaves the same rule installed and applied: rule conflict is decided
by value equality of the settings tuple. -/
theorem set_switch_rule_same_rule_ok (d : OPPSolenoid) (r : SwitchRule)
    (hr : d.switch_rule = some r) :
    (set_switch_rule d r.pulse_settings r.hold_settings r.recycle).1 = none ∧
    (set_switch_rule d r.pulse_settings r.hold_settings
        r.recycle).2.1.switch_rule = some r ∧
    (set_switch_rule d r.pulse_settings r.hold_settings
        r.recycle).2.1.config_state =
      some (r.pulse_settings, r.hold_settings, r.recycle, true) := by
  unfold set_switch_rule
  have hcond : ¬(d.switch_rule.isSome = true ∧
      d.switch_rule ≠ some ⟨r.pulse_settings, r.hold_settings, r.recycle⟩) := by
    rintro ⟨_, hne⟩
    exact hne (by rw [hr])
  rw [if_neg hcond]
  have h' : ({ d with switch_rule := some ⟨r.pulse_settings, r.hold_settings, r.recycle⟩ } : OPPSolenoid).switch_rule = some r := rfl
  obtain ⟨hc, hsr⟩ := apply_switch_rule_applied _ r h'
  exact ⟨rfl, hsr, hc⟩

/-- Witness for C9: re-installing `ruleEx` on `d1ex` succeeds and keeps
the rule installed and applied. -/
theorem set_switch_rule_same_rule_ok_witness :
    (set_switch_rule d1ex ruleEx.pulse_settings ruleEx.hold_settings
        ruleEx.recycle).1 = none ∧
    (set_switch_rule d1ex ruleEx.pulse_settings ruleEx.hold_settings
        ruleEx.recycle).2.1.switch_rule = some ruleEx ∧
    (set_switch_rule d1ex ruleEx.pulse_settings ruleEx.hold_settings
        ruleEx.recycle).2.1.config_state =
      some (ruleEx.pulse_settings, ruleEx.hold_settings, ruleEx.recycle,
        true) :=
  set_switch_rule_same_rule_ok d1ex ruleEx (by decide)

/-- Claim C6: reconfiguring with the configuration state value-equal to
the last applied one is a no-op: no message is sent and the driver state
is unchanged. -/
theorem reconfigure_driver_noop (d : OPPSolenoid) (ps : PulseSettings)
    (hs : Option HoldSettings) (recycle : Bool)
    (h : d.config_state = some (ps, hs, recycle, d.switch_rule.isSome)) :
    reconfigure_driver d ps hs recycle = (d, []) := by
  unfold reconfigure_driver
  rw [if_pos h]

/-- Witness for C6: re-applying the exact rule configuration of `d1ex`
sends nothing and changes nothing. -/
theorem reconfigure_driver_noop_witness :
    reconfigure_driver d1ex ruleEx.pulse_settings ruleEx.hold_settings
      ruleEx.recycle = (d1ex, []) :=
  reconfigure_driver_noop d1ex ruleEx.pulse_settings ruleEx.hold_settings
    ruleEx.recycle (by decide)

/-- Claim C8: the minimum off factor is 0 with recycle off; with recycle
on it is the configured recycle factor when that is nonzero, else the
default factor 2. -/
theorem get_minimum_off_time_spec (d : OPPSolenoid) :
    get_minimum_off_time d false = 0 ∧
    get_minimum_off_time d true =
      (if d.recycle_factor ≠ 0 then d.recycle_factor else 2) := by
  exact ⟨rfl, rfl⟩

/-- Claim C7 counterexample: on a driver with a switch rule installed,
a pulse with different settings sends two reconfiguration commands (one
before the kick, one after the kick to restore the rule), refuting the
claim that at most one reconfiguration command is sent. -/
theorem pulse_sends_two_config_msgs :
    ¬(((pulse d1ex { duration := 23, power := 1 }).2.filter
        isConfigMsg).length ≤ 1) ∧
    ((pulse d1ex { duration := 23, power := 1 }).2.filter
        isConfigMsg).length = 2 ∧
    ((pulse d1ex { duration := 23, power := 1 }).2.filter
        isKickMsg).length = 1 := by
  decide

/-- Claim C7 (amended): a pulse sends at most one reconfiguration
command, then exactly one kick-solenoid command, then at most one further
reconfiguration command which only occurs when a switch rule is installed
(it re-applies the rule); the call returns after emitting the commands
without reading or awaiting any response from the hardware, so success
means the commands were sent, not that a ball moved. -/
theorem pulse_msg_shape (d : OPPSolenoid) (ps : PulseSettings) :
    ∃ r1 r2 : List OppMsg,
      (pulse d ps).2 =
        r1 ++ OppMsg.kick d.addr true (1 <<< d.sol_int) :: r2 ∧
      r1.length ≤ 1 ∧ r2.length ≤ 1 ∧
      r1.all isConfigMsg = true ∧ r2.all isConfigMsg = true ∧
      (d.switch_rule = none → r2 = []) := by
  refine ⟨(reconfigure_driver d ps none false).2,
    (apply_switch_rule (reconfigure_driver d ps none false).1).2,
    ?_, (reconfigure_driver_msgs_spec d ps none false).1,
    (apply_switch_rule_msgs_spec _).1,
    (reconfigure_driver_msgs_spec d ps none false).2,
    (apply_switch_rule_msgs_spec _).2, ?_⟩
  · show ((reconfigure_driver d ps none false).2 ++
        [OppMsg.kick d.addr true (1 <<< d.sol_int)]) ++
        (apply_switch_rule (reconfigure_driver d ps none false).1).2 = _
    rw [List.append_assoc]
    rfl
  · intro hnone
    have h1 : ((reconfigure_driver d ps none false).1).switch_rule = none := by
      rw [reconfigure_driver_switch_rule]
      exact hnone
    rw [apply_switch_rule_of_none _ h1]

/-- Claim C10: with a switch rule installed, after `pulse` or `enable`
returns, the configuration last applied to the hardware is the rule
settings again, and the rule is still installed: the temporary pulse or
enable configuration is always followed by re-applying the rule. -/
theorem rule_reapplied_after_pulse_enable (d : OPPSolenoid) (r : SwitchRule)
    (ps : PulseSettings) (hs : HoldSettings) (h : d.switch_rule = some r) :
    (pulse d ps).1.config_state =
      some (r.pulse_settings, r.hold_settings, r.recycle, true) ∧
    (pulse d ps).1.switch_rule = some r ∧
    (enable d ps hs).1.config_state =
      some (r.pulse_settings, r.hold_settings, r.recycle, true) ∧
    (enable d ps hs).1.switch_rule = some r := by
  have h1 : ((reconfigure_driver d ps none false).1).switch_rule = some r := by
    rw [reconfigure_driver_switch_rule]
    exact h
  have h2 : ((reconfigure_driver d ps (some hs) false).1).switch_rule =
      some r := by
    rw [reconfigure_driver_switch_rule]
    exact h
  obtain ⟨hc1, hs1⟩ := apply_switch_rule_applied _ r h1
  obtain ⟨hc2, hs2⟩ := apply_switch_rule_applied _ r h2
  exact ⟨hc1, hs1, hc2, hs2⟩

/-- Witness for C10: after pulsing `d1ex` the applied configuration is
the rule settings of `ruleEx` again, for `pulse` and for `enable`. -/
theorem rule_reapplied_after_pulse_enable_witness :
    (pulse d1ex { duration := 23, power := 1 }).1.config_state =
      some (ruleEx.pulse_settings, ruleEx.hold_settings, ruleEx.recycle,
        true) ∧
    (pulse d1ex { duration := 23, power := 1 }).1.switch_rule =
      some ruleEx ∧
    (enable d1ex { duration := 23, power := 1 }
        { power := 1 / 2 }).1.config_state =
      some (ruleEx.pulse_settings, ruleEx.hold_settings, ruleEx.recycle,
        true) ∧
    (enable d1ex { duration := 23, power := 1 }
        { power := 1 / 2 }).1.switch_rule = some ruleEx :=
  rule_reapplied_after_pulse_enable d1ex ruleEx
    { duration := 23, power := 1 } { power := 1 / 2 } (by decide)

theorem updDev_same {ι : Type} [DecidableEq ι] (m : Machine ι) (i : ι)
    (d : BallDevice ι) : (updDev m i d).devices i = d := by
  simp [updDev]

theorem updDev_other {ι : Type} [DecidableEq ι] (m : Machine ι) (i j : ι)
    (d : BallDevice ι) (h : j ≠ i) : (updDev m i d).devices j = m.devices j := by
  simp [updDev, Function.update_noteq h]

theorem sum_update_add {ι : Type} [Fintype ι] [DecidableEq ι] (g : ι → ℕ)
    (i : ι) (b : ℕ) :
    (∑ x, Function.update g i b x) + g i = (∑ x, g x) + b := by
  rw [Finset.sum_update_of_mem (Finset.mem_univ i),
    Finset.sdiff_singleton_eq_erase]
  have h2 := Finset.add_sum_erase Finset.univ g (Finset.mem_univ i)
  omega

theorem totalCount_updDev {ι : Type} [Fintype ι] [DecidableEq ι]
    (m : Machine ι) (i : ι) (d : BallDevice ι) :
    totalCount (updDev m i d) + (m.devices i).ball_count =
      totalCount m + d.ball_count := by
  have hpt : ∀ x, ((updDev m i d).devices x).ball_count =
      Function.update (fun j => (m.devices j).ball_count) i d.ball_count x := by
    intro x
    by_cases hx : x = i
    · subst hx
      rw [updDev_same, Function.update_same]
    · rw [updDev_other _ _ _ _ hx, Function.update_noteq hx]
  unfold totalCount
  rw [Finset.sum_congr rfl (fun x _ => hpt x)]
  exact sum_update_add _ i _

theorem totalCount_updDev_eq {ι : Type} [Fintype ι] [DecidableEq ι]
    (m : Machine ι) (i : ι) (d : BallDevice ι)
    (h : d.ball_count = (m.devices i).ball_count) :
    totalCount (updDev m i d) = totalCount m := by
  have h1 := totalCount_updDev m i d
  omega

theorem totalCount_confirm {ι : Type} [Fintype ι] [DecidableEq ι]
    (m : Machine ι) (src tgt : ι) (dS dT : BallDevice ι) (hne : src ≠ tgt)
    (hS : dS.ball_count + 1 = (m.devices src).ball_count)
    (hT : dT.ball_count = (m.devices tgt).ball_count + 1) :
    totalCount (updDev (updDev m src dS) tgt dT) = totalCount m := by
  have hA := totalCount_updDev m src dS
  have hO : ((updDev m src dS).devices tgt).ball_count =
      (m.devices tgt).ball_count := by
    rw [updDev_other _ _ _ _ (Ne.symm hne)]
  have hB := totalCount_updDev (updDev m src dS) tgt dT
  rw [hO] at hB
  omega

theorem step_preserves_total {ι : Type} [Fintype ι] [DecidableEq ι]
    {maxA : Nat} {m m' : Machine ι} {e : BallEvent ι}
    (hstep : Step maxA m e m') :
    totalCount m' = totalCount m ∧
    m'.total_known_balls = m.total_known_balls := by
  cases hstep with
  | requestEject h1 => exact ⟨totalCount_updDev_eq _ _ _ rfl, rfl⟩
  | ejectStart h1 h2 h3 h4 h5 => exact ⟨totalCount_updDev_eq _ _ _ rfl, rfl⟩
  | blocked h1 h2 h3 => exact ⟨totalCount_updDev_eq _ _ _ rfl, rfl⟩
  | resume h1 h2 h3 h4 => exact ⟨totalCount_updDev_eq _ _ _ rfl, rfl⟩
  | retryPulse h1 h2 h3 => exact ⟨totalCount_updDev_eq _ _ _ rfl, rfl⟩
  | jamFault h1 h2 h3 => exact ⟨totalCount_updDev_eq _ _ _ rfl, rfl⟩
  | reconcile dev => exact ⟨rfl, rfl⟩
  | confirm h1 h2 h3 h4 =>
      rename_i src tgt
      refine ⟨totalCount_confirm m src tgt _ _ h3 ?_ rfl, rfl⟩
      show (m.devices src).ball_count - 1 + 1 = (m.devices src).ball_count
      omega

/-- Claim C2: conservation.  For every reachable machine state the ledger
`total_known_balls` equals the sum of the ball counts over all devices,
with in-flight unconfirmed transfers counted as still present in their
source device (a source decrements only at confirmation, so the in-flight
ball is part of the source count); in particular the sum of all device
counts stays constant along any reachable trace, e.g. across boot, game
start, plunging and draining. -/
theorem total_known_balls_conservation {ι : Type} [Fintype ι]
    [DecidableEq ι] {maxA : Nat} {init m : Machine ι}
    (hreach : Reachable maxA init m)
    (hinit : init.total_known_balls = totalCount init) :
    m.total_known_balls = totalCount m ∧ totalCount m = totalCount init := by
  induction hreach with
  | refl => exact ⟨hinit, rfl⟩
  | step hr hs ih =>
      obtain ⟨h1, h2⟩ := step_preserves_total hs
      exact ⟨by rw [h2, ih.1, h1], by rw [h1, ih.2]⟩

theorem stepBlocked01 : Step 3 bootMachine (.blocked 0) bootM1 :=
  Step.blocked (by decide) (by decide) (by decide)

theorem stepRequest1 : Step 3 bootM1 (.requestEject 1) bootM2 :=
  Step.requestEject (by decide)

theorem stepEject12 : Step 3 bootM2 (.ejectStart 1 2) bootM3 :=
  Step.ejectStart (by decide) (by decide) (by decide) (by decide) (by decide)

theorem stepConfirm12 : Step 3 bootM3 (.confirm 1 2) bootM4 :=
  Step.confirm (by decide) (by decide) (by decide) (by decide)

theorem stepResume01 : Step 3 bootM4 (.resume 0 1) bootM5 :=
  Step.resume (by decide) (by decide) (by decide) (by decide)

theorem stepConfirm01 : Step 3 bootM5 (.confirm 0 1) bootM6 :=
  Step.confirm (by decide) (by decide) (by decide) (by decide)

theorem bootM6_reachable : Reachable 3 bootMachine bootM6 :=
  Reachable.step
    (Reachable.step
      (Reachable.step
        (Reachable.step
          (Reachable.step (Reachable.step Reachable.refl stepBlocked01)
            stepRequest1)
          stepEject12)
        stepConfirm12)
      stepResume01)
    stepConfirm01

/-- Witness for C2: the ledger matches the device count sum after the
full boot, game start, transfer and drain-recovery trace of the Gottlieb
scenario, and the sum is conserved along it. -/
theorem total_known_balls_conservation_witness :
    bootM6.total_known_balls = totalCount bootM6 ∧
    totalCount bootM6 = totalCount bootMachine :=
  total_known_balls_conservation bootM6_reachable (by decide)

theorem counts_eq_of_upd {ι : Type} [DecidableEq ι] (m : Machine ι)
    (src : ι) (d : BallDevice ι)
    (h : d.ball_count = (m.devices src).ball_count) (i : ι) :
    ((updDev m src d).devices i).ball_count = (m.devices i).ball_count := by
  by_cases hi : i = src
  · subst hi
    rw [updDev_same, h]
  · rw [updDev_other _ _ _ _ hi]

theorem c3_aux {ι : Type} {m m' : Machine ι} {e : BallEvent ι}
    (hsame : ∀ i, (m'.devices i).ball_count = (m.devices i).ball_count)
    (hnc : ∀ i j, e ≠ .confirm i j) :
    (∀ i, (m'.devices i).ball_count < (m.devices i).ball_count →
      ∃ j, e = .confirm i j) ∧
    (∀ i, (m.devices i).ball_count < (m'.devices i).ball_count →
      ∃ j, e = .confirm j i) ∧
    (∀ i j, e = .confirm i j →
      (m'.devices i).ball_count + 1 = (m.devices i).ball_count ∧
      (m'.devices j).ball_count = (m.devices j).ball_count + 1) ∧
    (isPulseEvent e = true →
      ∀ i, (m'.devices i).ball_count = (m.devices i).ball_count) := by
  refine ⟨?_, ?_, ?_, ?_⟩
  · intro i hlt
    rw [hsame i] at hlt
    exact absurd hlt (Nat.lt_irrefl _)
  · intro i hlt
    rw [hsame i] at hlt
    exact absurd hlt (Nat.lt_irrefl _)
  · intro i j hij
    exact absurd hij (hnc i j)
  · intro _ i
    exact hsame i

/-- Claim C3: a ball count decreases only on confirmed transfer
completion (the target entry switch activating), never on pulse issuance
alone; a confirmed transfer decrements its source exactly once and
increments exactly the target, and a count increases only by the target
device registering its own switch event; every pulse-issuing event
(eject start, resume, retry) leaves every ball count unchanged. -/
theorem ball_count_changes_only_on_confirm {ι : Type} [DecidableEq ι]
    {maxA : Nat} {m m' : Machine ι} {e : BallEvent ι}
    (hstep : Step maxA m e m') :
    (∀ i, (m'.devices i).ball_count < (m.devices i).ball_count →
      ∃ j, e = .confirm i j) ∧
    (∀ i, (m.devices i).ball_count < (m'.devices i).ball_count →
      ∃ j, e = .confirm j i) ∧
    (∀ i j, e = .confirm i j →
      (m'.devices i).ball_count + 1 = (m.devices i).ball_count ∧
      (m'.devices j).ball_count = (m.devices j).ball_count + 1) ∧
    (isPulseEvent e = true →
      ∀ i, (m'.devices i).ball_count = (m.devices i).ball_count) := by
  cases hstep with
  | requestEject h1 =>
      exact c3_aux (counts_eq_of_upd _ _ _ rfl) (fun i j h => BallEvent.noConfusion h)
  | ejectStart h1 h2 h3 h4 h5 =>
      exact c3_aux (counts_eq_of_upd _ _ _ rfl) (fun i j h => BallEvent.noConfusion h)
  | blocked h1 h2 h3 =>
      exact c3_aux (counts_eq_of_upd _ _ _ rfl) (fun i j h => BallEvent.noConfusion h)
  | resume h1 h2 h3 h4 =>
      exact c3_aux (counts_eq_of_upd _ _ _ rfl) (fun i j h => BallEvent.noConfusion h)
  | retryPulse h1 h2 h3 =>
      exact c3_aux (counts_eq_of_upd _ _ _ rfl) (fun i j h => BallEvent.noConfusion h)
  | jamFault h1 h2 h3 =>
      exact c3_aux (counts_eq_of_upd _ _ _ rfl) (fun i j h => BallEvent.noConfusion h)
  | reconcile dev =>
      exact c3_aux (fun i => rfl) (fun i j h => BallEvent.noConfusion h)
  | confirm h1 h2 h3 h4 =>
      rename_i src tgt
      have hsrc : ((updDev (updDev m src
          { m.devices src with
              state := .idle, pending_transfer := none,
              ball_count := (m.devices src).ball_count - 1 }) tgt
          { m.devices tgt with
              ball_count := (m.devices tgt).ball_count + 1 }).devices
            src).ball_count = (m.devices src).ball_count - 1 := by
        rw [updDev_other _ _ _ _ h3, updDev_same]
      have htgt : ((updDev (updDev m src
          { m.devices src with
              state := .idle, pending_transfer := none,
              ball_count := (m.devices src).ball_count - 1 }) tgt
          { m.devices tgt with
              ball_count := (m.devices tgt).ball_count + 1 }).devices
            tgt).ball_count = (m.devices tgt).ball_count + 1 := by
        rw [updDev_same]
      have hother : ∀ i, i ≠ src → i ≠ tgt →
          ((updDev (updDev m src
            { m.devices src with
                state := .idle, pending_transfer := none,
                ball_count := (m.devices src).ball_count - 1 }) tgt
            { m.devices tgt with
                ball_count := (m.devices tgt).ball_count + 1 }).devices
              i).ball_count = (m.devices i).ball_count := by
        intro i hi1 hi2
        rw [updDev_other _ _ _ _ hi2, updDev_other _ _ _ _ hi1]
      refine ⟨?_, ?_, ?_, ?_⟩
      · intro i hlt
        by_cases hi : i = src
        · exact ⟨tgt, by rw [hi]⟩
        · by_cases hi2 : i = tgt
          · subst hi2
            rw [htgt] at hlt
            omega
          · rw [hother i hi hi2] at hlt
            exact absurd hlt (Nat.lt_irrefl _)
      · intro i hlt
        by_cases hi2 : i = tgt
        · exact ⟨src, by rw [hi2]⟩
        · by_cases hi : i = src
          · subst hi
            rw [hsrc] at hlt
            omega
          · rw [hother i hi hi2] at hlt
            exact absurd hlt (Nat.lt_irrefl _)
      · intro i j hij
        injection hij with hi hj
        subst hi
        subst hj
        refine ⟨?_, htgt⟩
        rw [hsrc]
        omega
      · intro hp
        exact Bool.noConfusion hp

/-- Witness for C3: the confirmed trough-to-plunger transfer of the boot
trace decrements the trough by exactly one and increments the plunger by
exactly one. -/
theorem ball_count_changes_only_on_confirm_witness :
    (bootM4.devices (1 : Fin 4)).ball_count + 1 =
      (bootM3.devices 1).ball_count ∧
    (bootM4.devices (2 : Fin 4)).ball_count =
      (bootM3.devices 2).ball_count + 1 :=
  (ball_count_changes_only_on_confirm stepConfirm12).2.2.1 1 2 rfl

theorem no_free_target {ι : Type} [DecidableEq ι] {m : Machine ι}
    {i tgt : ι}
    (hfull : ∀ j ∈ (m.devices i).eject_target_chain,
      hasFreeCapacity (m.devices j) = false)
    (hfind : firstFreeTarget m (m.devices i) = some tgt) : False := by
  unfold firstFreeTarget at hfind
  have h0 := List.find?_some hfind
  have h1 : hasFreeCapacity (m.devices tgt) = true := h0
  have h2 : tgt ∈ (m.devices i).eject_target_chain :=
    List.mem_of_find?_eq_some hfind
  rw [hfull tgt h2] at h1
  exact Bool.noConfusion h1

theorem c4_aux {ι : Type} {m m' : Machine ι} {i : ι}
    (hst : (m'.devices i).state = (m.devices i).state)
    (hpc : (m'.devices i).pulse_count = (m.devices i).pulse_count) :
    ((m.devices i).state = .waiting_for_target →
      (m'.devices i).state = .waiting_for_target ∧
      (m'.devices i).pulse_count = (m.devices i).pulse_count) ∧
    ((m.devices i).state = .idle →
      (m'.devices i).state ≠ .ejecting ∧
      (m'.devices i).pulse_count = (m.devices i).pulse_count) := by
  refine ⟨fun hw => ⟨by rw [hst, hw], hpc⟩, fun hid => ⟨?_, hpc⟩⟩
  rw [hst, hid]
  intro hc
  exact DevState.noConfusion hc

/-- Claim C4: backpressure.  While every candidate in the eject target
chain of a device is at full capacity, no step pulses that coil and no
step brings the device into EJECTING: a device waiting for a target stays
in WAITING_FOR_TARGET with its pulse count unchanged, and an idle device
(in particular one with an eject requirement pending) never transitions
to EJECTING and its pulse count is also unchanged. -/
theorem backpressure_waiting {ι : Type} [DecidableEq ι] {maxA : Nat}
    {m m' : Machine ι} {e : BallEvent ι} {i : ι}
    (hstep : Step maxA m e m')
    (hfull : ∀ j ∈ (m.devices i).eject_target_chain,
      hasFreeCapacity (m.devices j) = false) :
    ((m.devices i).state = .waiting_for_target →
      (m'.devices i).state = .waiting_for_target ∧
      (m'.devices i).pulse_count = (m.devices i).pulse_count) ∧
    ((m.devices i).state = .idle →
      (m'.devices i).state ≠ .ejecting ∧
      (m'.devices i).pulse_count = (m.devices i).pulse_count) := by
  cases hstep with
  | requestEject h1 =>
      rename_i dev
      by_cases hi : i = dev
      · subst hi
        exact c4_aux (by rw [updDev_same]) (by rw [updDev_same])
      · exact c4_aux (by rw [updDev_other _ _ _ _ hi])
          (by rw [updDev_other _ _ _ _ hi])
  | ejectStart h1 h2 h3 h4 h5 =>
      rename_i src tgt
      by_cases hi : i = src
      · subst hi
        exact (no_free_target hfull h4).elim
      · exact c4_aux (by rw [updDev_other _ _ _ _ hi])
          (by rw [updDev_other _ _ _ _ hi])
  | blocked h1 h2 h3 =>
      rename_i src
      by_cases hi : i = src
      · subst hi
        refine ⟨fun hw => ⟨by rw [updDev_same], by rw [updDev_same]⟩,
          fun hid => ⟨?_, by rw [updDev_same]⟩⟩
        rw [updDev_same]
        intro hc
        exact DevState.noConfusion hc
      · exact c4_aux (by rw [updDev_other _ _ _ _ hi])
          (by rw [updDev_other _ _ _ _ hi])
  | resume h1 h2 h3 h4 =>
      rename_i src tgt
      by_cases hi : i = src
      · subst hi
        exact (no_free_target hfull h3).elim
      · exact c4_aux (by rw [updDev_other _ _ _ _ hi])
          (by rw [updDev_other _ _ _ _ hi])
  | confirm h1 h2 h3 h4 =>
      rename_i src tgt
      by_cases hi : i = src
      · subst hi
        refine ⟨fun hw => ?_, fun hid => ?_⟩
        · rw [hw] at h1
          exact DevState.noConfusion h1
        · rw [hid] at h1
          exact DevState.noConfusion h1
      · by_cases hi2 : i = tgt
        · subst hi2
          exact c4_aux (by rw [updDev_same]) (by rw [updDev_same])
        · exact c4_aux
            (by rw [updDev_other _ _ _ _ hi2, updDev_other _ _ _ _ hi])
            (by rw [updDev_other _ _ _ _ hi2, updDev_other _ _ _ _ hi])
  | retryPulse h1 h2 h3 =>
      rename_i src
      by_cases hi : i = src
      · subst hi
        refine ⟨fun hw => ?_, fun hid => ?_⟩
        · rw [hw] at h1
          exact DevState.noConfusion h1
        · rw [hid] at h1
          exact DevState.noConfusion h1
      · exact c4_aux (by rw [updDev_other _ _ _ _ hi])
          (by rw [updDev_other _ _ _ _ hi])
  | jamFault h1 h2 h3 =>
      rename_i src
      by_cases hi : i = src
      · subst hi
        refine ⟨fun hw => ?_, fun hid => ?_⟩
        · rw [hw] at h1
          exact DevState.noConfusion h1
        · rw [hid] at h1
          exact DevState.noConfusion h1
      · exact c4_aux (by rw [updDev_other _ _ _ _ hi])
          (by rw [updDev_other _ _ _ _ hi])
  | reconcile dev =>
      exact c4_aux rfl rfl

/-- Witness for C4: with the trough full, the waiting outhole stays in
WAITING_FOR_TARGET with its pulse count unchanged across the next step of
the boot trace. -/
theorem backpressure_waiting_witness :
    (bootM2.devices (0 : Fin 4)).state = DevState.waiting_for_target ∧
    (bootM2.devices (0 : Fin 4)).pulse_count =
      (bootM1.devices 0).pulse_count :=
  (backpressure_waiting stepRequest1 (by decide)).1 (by decide)

/-- Claim C5: a device in WAITING_FOR_TARGET that holds a ball resumes as
soon as some candidate in its eject target chain has free capacity, with
no other trigger required: the resume step is enabled, and it moves the
device to EJECTING, creates a fresh transfer to the selected target and
pulses the coil exactly once. -/
theorem waiting_resumes_on_capacity {ι : Type} [DecidableEq ι]
    (maxA : Nat) {m : Machine ι} {i : ι}
    (hw : (m.devices i).state = .waiting_for_target)
    (hb : 0 < (m.devices i).ball_count)
    (hfree : ∃ j ∈ (m.devices i).eject_target_chain,
      hasFreeCapacity (m.devices j) = true)
    (hself : i ∉ (m.devices i).eject_target_chain) :
    ∃ tgt m', Step maxA m (.resume i tgt) m' ∧
      (m'.devices i).state = .ejecting ∧
      (m'.devices i).pending_transfer = some ⟨tgt, 0, false⟩ ∧
      (m'.devices i).pulse_count = (m.devices i).pulse_count + 1 := by
  obtain ⟨j, hjmem, hjfree⟩ := hfree
  have hsome : (List.find? (fun j => hasFreeCapacity (m.devices j))
      (m.devices i).eject_target_chain).isSome := by
    rw [List.find?_isSome]
    exact ⟨j, hjmem, hjfree⟩
  obtain ⟨tgt, htgt⟩ := Option.isSome_iff_exists.mp hsome
  have hfind : firstFreeTarget m (m.devices i) = some tgt := htgt
  have hmem : tgt ∈ (m.devices i).eject_target_chain :=
    List.mem_of_find?_eq_some htgt
  have hne : i ≠ tgt := by
    intro h
    apply hself
    nth_rewrite 2 [h]
    exact hmem
  refine ⟨tgt, _, Step.resume hw hb hfind hne, ?_, ?_, ?_⟩
  · rw [updDev_same]
  · rw [updDev_same]
  · rw [updDev_same]

/-- Witness for C5: after the trough sends a ball onward, the waiting
outhole is able to resume toward the trough: EJECTING, a fresh transfer,
and exactly one more coil pulse. -/
theorem waiting_resumes_on_capacity_witness :
    ∃ tgt m', Step 3 bootM4 (BallEvent.resume 0 tgt) m' ∧
      (m'.devices (0 : Fin 4)).state = DevState.ejecting ∧
      (m'.devices (0 : Fin 4)).pending_transfer = some ⟨tgt, 0, false⟩ ∧
      (m'.devices (0 : Fin 4)).pulse_count =
        (bootM4.devices 0).pulse_count + 1 :=
  waiting_resumes_on_capacity 3 (by decide) (by decide) (by decide)
    (by decide)

end MPF
